import Mathlib

/-!
Shallow embedding of the Open-Chat-Ai repository (two React chat screens
talking to an OpenRouter-compatible endpoint) and proofs about the claims
of its specification.

Namespace `ProChat` embeds the multi-chat streaming screen
(`src/unnamed/part_001`, component `ProChat`); namespace `SimpleChat`
embeds the setup-then-chat screen
(`src/src/components/HuggingFaceChatApp.tsx`).

JavaScript idioms are translated explicitly:
* `a?.b ?? c` becomes `Option.bind`/`Option.getD`;
* truthiness of a string (`s ? x : y`) becomes a test against `""`;
* truthiness of `xs?.length` becomes a non-emptiness test on the list
  (an absent attachment list and an empty one are observationally equal
  everywhere in this code, so `attachments` is modelled as a plain list);
* `window.alert` and `console.error` become explicit log lists;
* the `AbortController` stored in `abortRef.current` is modelled by a
  Boolean recording whether a controller is currently stored.
-/

namespace Js

/-- JS whitespace (`\s`, `String.prototype.trim`), restricted to the
ASCII characters that can occur here. -/
def isSpace (c : Char) : Bool :=
  c = ' ' || c = '\t' || c = '\n' || c = '\x0b' || c = '\x0c' || c = '\r'

def trimChars (l : List Char) : List Char :=
  ((l.dropWhile isSpace).reverse.dropWhile isSpace).reverse

/-- `String.prototype.trim`. -/
def trim (s : String) : String := ⟨trimChars s.data⟩

/-- `String.prototype.startsWith`. -/
def startsWith (s p : String) : Bool := p.data.isPrefixOf s.data

/-- `String.prototype.endsWith`. -/
def endsWith (s p : String) : Bool := p.data.isSuffixOf s.data

/-- Drop the first `n` UTF-16-ish units (`slice(n)`). -/
def drop (s : String) (n : Nat) : String := ⟨s.data.drop n⟩

/-- Keep the first `n` units (`slice(0, n)`). -/
def take (s : String) (n : Nat) : String := ⟨s.data.take n⟩

/-- Drop the last `n` units. -/
def dropRight (s : String) (n : Nat) : String := ⟨(s.data.reverse.drop n).reverse⟩

/-- Drop the longest whitespace run from the front (the regex `\s*`). -/
def dropLeadingSpace (s : String) : String := ⟨s.data.dropWhile isSpace⟩

/-- Whether the string contains the character. -/
def containsChar (s : String) (c : Char) : Bool := s.data.contains c

def splitNlAux : List Char → List Char → List String
  | [], acc => [⟨acc.reverse⟩]
  | c :: rest, acc =>
      if c = '\n' then ⟨acc.reverse⟩ :: splitNlAux rest []
      else splitNlAux rest (c :: acc)

/-- `String.prototype.split("\n")`: split at every LF, keeping empty
pieces (`"".split("\n")` is `[""]`). -/
def splitNewline (s : String) : List String := splitNlAux s.data []

end Js

namespace ProChat

/-- Message role: `"system" | "user" | "assistant"`. -/
inductive Role where
  | system
  | user
  | assistant
deriving DecidableEq

/-- Attachment kind: `"image" | "file"`. -/
inductive AttachKind where
  | image
  | file
deriving DecidableEq

/-- `interface Attachment` of the pro screen. -/
structure Attachment where
  id : String
  name : String
  type : AttachKind
  mime : String
  dataUrl : Option String
  textPreview : Option String
  size : Option Nat
deriving DecidableEq

/-- `interface Message` of the pro screen (`timestamp` is epoch ms). -/
structure Message where
  id : String
  role : Role
  content : String
  timestamp : Nat
  attachments : List Attachment
deriving DecidableEq

/-- One conversation of the sidebar: `{ id, title, messages }`. -/
structure Chat where
  id : String
  title : String
  messages : List Message
deriving DecidableEq

/-- `interface ModelConfig`.  `temperature` is a JS number used only
opaquely (copied into the payload), modelled as `Rat`. -/
structure ModelConfig where
  apiKey : String
  selectedModel : String
  baseUrl : String
  temperature : Rat
  maxTokens : Option Nat
deriving DecidableEq

/-- The persona selector `type AssistantStyle`. -/
inductive AssistantStyle where
  | Default
  | Claude
  | ChatGPT
  | Qwen
deriving DecidableEq

/-- `STYLE_PROMPTS` (the same table appears verbatim in both screens). -/
def STYLE_PROMPTS : AssistantStyle → String
  | AssistantStyle.Default =>
      "You are a concise, helpful assistant.\n\n- Use clean Markdown\n- Prefer short paragraphs and bullet lists\n- Add section headings (##)\n- Use fenced code blocks with language hints\n- Avoid unnecessary preambles or filler"
  | AssistantStyle.Claude =>
      "Adopt Anthropic Claude\x27s tone: warm, thoughtful, and structured.\n\n- Use Markdown with clear section headings (##)\n- Write short paragraphs and crisp bullet points\n- Show code in fenced blocks with language tags and minimal commentary\n- When helpful, conclude with a brief \"Next steps\" list\n- Keep answers approachable yet precise"
  | AssistantStyle.ChatGPT =>
      "Adopt ChatGPT\x27s tone: friendly, practical, and well-organized.\n\n- Begin with a one-line summary if the answer is long\n- Use Markdown with lists, tables (when useful), and code blocks with language labels\n- Prefer step-by-step instructions\n- Add brief tips, caveats, or best practices to guide the reader"
  | AssistantStyle.Qwen =>
      "Adopt Qwen\x27s tone: crisp, technical, and example-driven.\n\n- Respond in Markdown with numbered steps and compact explanations\n- Favor code-first answers, with concise inline notes\n- Highlight key commands or APIs succinctly\n- Avoid verbosity and focus on essentials"

/-- Whole-component UI state of the pro screen (the pieces the claims
touch).  `alerts` records `window.alert` calls, newest last. -/
structure AppState where
  chats : List Chat
  activeChatId : String
  assistantStyle : AssistantStyle
  customSystemPrompt : String
  modelConfig : ModelConfig
  isStreaming : Bool
  abortRef : Bool
  inputMessage : String
  attachments : List Attachment
  alerts : List String
deriving DecidableEq

/-- `const activeChat = useMemo(() => chats.find(c => c.id === activeChatId)!, ...)`.
The non-null assertion is modelled by returning an `Option`; call sites
that would crash on `undefined` are noted where they are embedded. -/
def activeChat (st : AppState) : Option Chat :=
  st.chats.find? (fun c => decide (c.id = st.activeChatId))

/-- `systemPrompt` memo: persona base text, with the trimmed custom
prompt appended after a blank line when it is non-empty (JS truthiness of
`customSystemPrompt.trim()`). -/
def systemPrompt (st : AppState) : String :=
  if Js.trim st.customSystemPrompt = "" then STYLE_PROMPTS st.assistantStyle
  else STYLE_PROMPTS st.assistantStyle ++ "\n\n" ++ Js.trim st.customSystemPrompt

/-- The `setChats(prev => prev.map(c => c.id === activeChatId ? f c : c))`
pattern shared by every conversation mutation. -/
def mapActive (st : AppState) (f : Chat → Chat) : AppState :=
  { st with chats := st.chats.map (fun c => if c.id = st.activeChatId then f c else c) }

/-- `addMessage`: appends a message to the active conversation. -/
def addMessage (st : AppState) (msg : Message) : AppState :=
  mapActive st (fun c => { c with messages := c.messages ++ [msg] })

/-- The backwards loop of `updateLastAssistant`, expressed on the
reversed list: replace the first assistant message found. -/
def updateFirstAssistant : List Message → (Message → Message) → List Message
  | [], _ => []
  | m :: rest, f =>
      if m.role = Role.assistant then f m :: rest
      else m :: updateFirstAssistant rest f

/-- Replace the last assistant message of a message list (the source
scans from the end and stops at the first assistant role). -/
def updateLastAssistantIn (ms : List Message) (f : Message → Message) : List Message :=
  (updateFirstAssistant ms.reverse f).reverse

/-- `updateLastAssistant`: apply an updater to the last assistant message
of the active conversation. -/
def updateLastAssistant (st : AppState) (f : Message → Message) : AppState :=
  mapActive st (fun c => { c with messages := updateLastAssistantIn c.messages f })

-- ---------------- Request payload (`buildPayload`) ----------------

/-- One element of an OpenAI-style content array. -/
inductive ContentPart where
  | text (s : String)
  | imageUrl (url : String)
deriving DecidableEq

/-- A message `content` value in the request body: either a plain string
or a content array. -/
inductive PayloadContent where
  | str (s : String)
  | parts (l : List ContentPart)
deriving DecidableEq

structure PayloadMessage where
  role : Role
  content : PayloadContent
deriving DecidableEq

/-- The JSON body sent to `/chat/completions` by the pro screen. -/
structure Payload where
  model : String
  messages : List PayloadMessage
  temperature : Rat
  maxTokens : Option Nat
  stream : Bool
deriving DecidableEq

/-- JS truthiness of `a.dataUrl`: present and non-empty. -/
def Attachment.hasDataUrl (a : Attachment) : Bool :=
  match a.dataUrl with
  | some s => decide (s ≠ "")
  | none => false

/-- The filter `a.type === "image" && a.dataUrl` used by `buildPayload`. -/
def Attachment.isImageWithData (a : Attachment) : Bool :=
  decide (a.type = AttachKind.image) && a.hasDataUrl

/-- `imageParts`: one `image_url` part per image attachment that carries
a data URL. -/
def imagePartsOf (atts : List Attachment) : List ContentPart :=
  (atts.filter Attachment.isImageWithData).map
    (fun a => ContentPart.imageUrl (a.dataUrl.getD ""))

/-- `userHasImages`: whether the new user message carries at least one
image attachment with data. -/
def userHasImages (m : Message) : Bool :=
  m.attachments.any Attachment.isImageWithData

/-- The content-array form: one text part followed by the image parts. -/
def messageContentWithParts (m : Message) : PayloadContent :=
  PayloadContent.parts (ContentPart.text m.content :: imagePartsOf m.attachments)

/-- Content of a history message: the source tests `m.attachments?.length`
(truthy iff the attachment list is non-empty, of any kind), not the
presence of image attachments. -/
def historyContent (m : Message) : PayloadContent :=
  if m.attachments.isEmpty then PayloadContent.str m.content
  else messageContentWithParts m

/-- Content of the new user message: a content array exactly when an
image attachment with data is present. -/
def userContent (m : Message) : PayloadContent :=
  if userHasImages m then messageContentWithParts m
  else PayloadContent.str m.content

/-- `buildPayload(userMsg, history)`: system message first, then the
history, then the new user message. -/
def buildPayload (cfg : ModelConfig) (sysPrompt : String)
    (userMsg : Message) (history : List Message) : Payload :=
  { model := cfg.selectedModel
    messages :=
      { role := Role.system, content := PayloadContent.str sysPrompt }
        :: history.map (fun m => { role := m.role, content := historyContent m })
        ++ [{ role := Role.user, content := userContent userMsg }]
    temperature := cfg.temperature
    maxTokens := cfg.maxTokens
    stream := true }

-- ---------------- Streaming transport (`streamChat`) ----------------

/-- The line test `line.match(/^data:\s*(.*)$/)`, returning the captured
payload.  `.` does not match CR, and `$` anchors at the end of the line,
so a remainder containing a CR past the leading whitespace run cannot
match (lines never contain LF: they come from `chunk.split("\n")`). -/
def matchData (line : String) : Option String :=
  if Js.startsWith line "data:" then
    let rest := Js.dropLeadingSpace (Js.drop line 5)
    if Js.containsChar rest '\r' then none else some rest
  else none

/-- Shape of a parsed stream frame along the optional-chaining path
`json.choices?.[0]?.delta?.content`. -/
structure DeltaObj where
  content : Option String
deriving DecidableEq

structure ChoiceObj where
  delta : Option DeltaObj
deriving DecidableEq

structure StreamJson where
  choices : Option (List ChoiceObj)
deriving DecidableEq

/-- `json.choices?.[0]?.delta?.content ?? ""`. -/
def deltaOf (j : StreamJson) : String :=
  (((j.choices.bind List.head?).bind ChoiceObj.delta).bind DeltaObj.content).getD ""

/-- State threaded through the read loop: the surrounding UI state, the
running accumulator `full`, and the `console.error` log. -/
structure LoopState where
  app : AppState
  full : String
  log : List String
deriving DecidableEq

/-- Processing of one line of a decoded chunk.  `JSON.parse` is an
external library call, abstracted as the `parse` argument (returning
`none` on a parse error, which the source catches and logs). -/
def processLine (parse : String → Option StreamJson) (s : LoopState) (line : String) : LoopState :=
  match matchData line with
  | none => s
  | some data =>
    if data = "[DONE]" then s
    else
      match parse data with
      | none => { s with log := s.log ++ ["Failed to parse OpenRouter stream: " ++ line] }
      | some j =>
        let delta := deltaOf j
        if delta = "" then s
        else
          { s with
              full := s.full ++ delta
              app := updateLastAssistant s.app
                (fun m => { m with content := m.content ++ delta }) }

/-- `for (const line of chunk.split("\n"))`. -/
def processChunk (parse : String → Option StreamJson) (s : LoopState) (chunk : String) : LoopState :=
  (Js.splitNewline chunk).foldl (processLine parse) s

/-- The `while (true)` read loop over the decoded chunks. -/
def runChunks (parse : String → Option StreamJson) (s : LoopState) (chunks : List String) : LoopState :=
  chunks.foldl (processChunk parse) s

/-- How the read loop exits: the reader reports `done`, or an external
abort makes the pending `reader.read()` reject after `k` chunks were
delivered. -/
inductive StreamOutcome where
  | completed
  | aborted (k : Nat)
deriving DecidableEq

/-- Browser-dependent message of the `AbortError` rejection that
propagates out of `streamChat` when the request is aborted. -/
def abortErrorMessage : String := "The user aborted a request."

/-- Result of `streamChat`: final UI state, the `console.error` log of
the loop, and the promise outcome (`Except.error` is a thrown error). -/
structure StreamResult where
  state : AppState
  log : List String
  result : Except String String

/-- `streamChat(payload)` from the point where the response is OK and has
a body: store the controller, mark streaming, append the empty assistant
placeholder, run the read loop (a prefix of the chunks when aborted), run
the `finally` cleanup, and finish with the empty-response check. -/
def streamChat (parse : String → Option StreamJson) (st : AppState)
    (asstId : String) (t : Nat) (chunks : List String) (outcome : StreamOutcome) :
    StreamResult :=
  let st1 : AppState := { st with abortRef := true, isStreaming := true }
  let st2 := addMessage st1
    { id := asstId, role := Role.assistant, content := "", timestamp := t, attachments := [] }
  let consumed := match outcome with
    | StreamOutcome.completed => chunks
    | StreamOutcome.aborted k => chunks.take k
  let loop := runChunks parse { app := st2, full := "", log := [] } consumed
  let cleaned : AppState := { loop.app with isStreaming := false, abortRef := false }
  let result : Except String String :=
    match outcome with
    | StreamOutcome.aborted _ => Except.error abortErrorMessage
    | StreamOutcome.completed =>
        if Js.trim loop.full = "" then Except.error "Empty response from model"
        else Except.ok loop.full
  { state := cleaned, log := loop.log, result := result }

/-- `stopStreaming`: abort the in-flight controller (if any), clear the
handle, clear the in-progress flag. -/
def stopStreaming (st : AppState) : AppState :=
  { st with abortRef := false, isStreaming := false }

-- ---------------- Send / Edit / Regenerate ----------------

/-- The optional `custom` argument of `handleSend` (each field may be
absent independently; `??` is nullish coalescing). -/
structure CustomSend where
  content : Option String
  attachments : Option (List Attachment)
deriving DecidableEq

/-- The in-conversation error bubble appended by `handleSend`. -/
def errorBubble (msg : String) : String :=
  "## Error\n\n" ++ msg ++ "\n\n**Tips**\n- Check API key / model\n- Verify base URL"

/-- `handleSend(custom?)`.  Fresh ids and the clock are passed in (`uuid`
and `now` are nondeterministic): `uid` for the user message, `aid` for
the assistant placeholder, `eid` for a possible error bubble; message
timestamps, taken moments apart in the source, share the clock value `t`.
The second component is the request handed to `streamChat` (`none` when
no request is issued).  When the active-chat lookup finds nothing the
source throws on the non-null assertion after the composer was already
cleared; that path returns the partially updated state with no request. -/
def handleSend (st : AppState) (custom : Option CustomSend)
    (uid aid eid : String) (t : Nat)
    (parse : String → Option StreamJson) (chunks : List String) (outcome : StreamOutcome) :
    AppState × Option Payload :=
  if st.isStreaming then (st, none)
  else
    let content := Js.trim ((custom.bind CustomSend.content).getD st.inputMessage)
    if content = "" then (st, none)
    else if st.modelConfig.apiKey = "" ∨ st.modelConfig.selectedModel = "" then
      ({ st with alerts := st.alerts ++ ["Please set API key and model in Settings (gear icon)"] }, none)
    else
      let userMsg : Message :=
        { id := uid, role := Role.user, content := content, timestamp := t
          attachments := (custom.bind CustomSend.attachments).getD st.attachments }
      let st2 : AppState :=
        { addMessage st userMsg with inputMessage := "", attachments := [] }
      match activeChat st with
      | none => (st2, none)
      | some oldActive =>
        let payload := buildPayload st.modelConfig (systemPrompt st) userMsg oldActive.messages
        let sres := streamChat parse st2 aid t chunks outcome
        match sres.result with
        | Except.ok _ =>
          let st3 :=
            if oldActive.title = "New Chat" ∧ content.length ≠ 0 then
              mapActive sres.state (fun c => { c with title := Js.take content 42 })
            else sres.state
          (st3, some payload)
        | Except.error e =>
          (addMessage sres.state
            { id := eid, role := Role.assistant, content := errorBubble e
              timestamp := t, attachments := [] }, some payload)

/-- `handleEditMessage(mid)`: move the message text and attachments into
the composer, then truncate the active conversation strictly before the
edited message. -/
def handleEditMessage (st : AppState) (mid : String) : AppState :=
  match (activeChat st).bind (fun c => c.messages.find? (fun x => decide (x.id = mid))) with
  | none => st
  | some m =>
    let st1 : AppState := { st with inputMessage := m.content, attachments := m.attachments }
    mapActive st1 (fun c =>
      match c.messages.findIdx? (fun x => decide (x.id = mid)) with
      | none => c
      | some idx => { c with messages := c.messages.take idx })

/-- Index of the last user message (the source loops from the end). -/
def lastUserIdx? : List Message → Option Nat
  | [] => none
  | m :: rest =>
    match lastUserIdx? rest with
    | some i => some (i + 1)
    | none => if m.role = Role.user then some 0 else none

/-- `handleRegenerate()`: truncate the active conversation to end at the
last user message and re-issue the request from it.  The subsequent
asynchronous streaming is `streamChat`; here the state at the moment the
request is issued and the request itself are returned (`none` when no
user message exists).  Note there is no in-flight check. -/
def handleRegenerate (st : AppState) : AppState × Option Payload :=
  match activeChat st with
  | none => (st, none)
  | some c =>
    match lastUserIdx? c.messages with
    | none => (st, none)
    | some i =>
      let st1 := mapActive st (fun ch => { ch with messages := c.messages.take (i + 1) })
      match c.messages.get? i with
      | none => (st1, none)
      | some lastUser =>
          (st1, some (buildPayload st.modelConfig (systemPrompt st) lastUser (c.messages.take i)))

-- ---------------- Chat management ----------------

/-- `deleteChat(id)`: filter the conversation out; when the deleted chat
was active and more than one chat existed, activate the first remaining
one (both `chats.length` and the `find` read the pre-delete list). -/
def deleteChat (st : AppState) (id : String) : AppState :=
  let newChats := st.chats.filter (fun c => decide (c.id ≠ id))
  let newActive :=
    if id = st.activeChatId ∧ 1 < st.chats.length then
      match st.chats.find? (fun c => decide (c.id ≠ id)) with
      | some c => c.id
      | none => st.activeChatId
    else st.activeChatId
  { st with chats := newChats, activeChatId := newActive }

-- ---------------- Export / Import ----------------

/-- The JSON interchange document `{ id, title, messages }`.  A field is
`none` when it is absent from the document (or, for `messages`, not an
array); `JSON.stringify`/`JSON.parse` round-trip a document unchanged. -/
structure ChatDoc where
  id : Option String
  title : Option String
  messages : Option (List Message)
deriving DecidableEq

/-- `exportChat`: the active conversation serialized whole. -/
def exportChat (c : Chat) : ChatDoc :=
  { id := some c.id, title := some c.title, messages := some c.messages }

/-- JS `a || b` on an optional string: `b` when `a` is absent or empty. -/
def jsOr (a : Option String) (b : String) : String :=
  match a with
  | some s => if s = "" then b else s
  | none => b

/-- `file.name.replace(/\.json$/, "")`. -/
def stripJsonExt (n : String) : String :=
  if Js.endsWith n ".json" then Js.dropRight n 5 else n

/-- `importChat`: `doc?` is `none` when `JSON.parse` failed.  A document
is accepted iff `obj.messages` is truthy and an array (an empty array is
truthy in JS); the new conversation gets a fresh id and becomes active.
Rejections raise `alert` and change nothing else. -/
def importChat (st : AppState) (doc? : Option ChatDoc) (fileName : String) (freshId : String) :
    AppState :=
  match doc? with
  | none => { st with alerts := st.alerts ++ ["Failed to parse JSON"] }
  | some doc =>
    match doc.messages with
    | some msgs =>
      let c : Chat := { id := freshId, title := jsOr doc.title (stripJsonExt fileName), messages := msgs }
      { st with chats := c :: st.chats, activeChatId := freshId }
    | none => { st with alerts := st.alerts ++ ["Invalid chat JSON"] }

-- ---------------- Derived stream observations ----------------

/-- The delta value a single line contributes to the read loop, `none`
when the line is skipped (no framing match, `[DONE]`, or parse error). -/
def lineDelta (parse : String → Option StreamJson) (line : String) : Option String :=
  match matchData line with
  | none => none
  | some data =>
    if data = "[DONE]" then none
    else
      match parse data with
      | none => none
      | some j => some (deltaOf j)

def chunkDeltas (parse : String → Option StreamJson) (chunk : String) : List String :=
  (Js.splitNewline chunk).filterMap (lineDelta parse)

/-- Every delta value decoded from the stream, in order. -/
def streamDeltas (parse : String → Option StreamJson) (chunks : List String) : List String :=
  chunks.flatMap (chunkDeltas parse)

-- ---------------- Concrete states for the examples ----------------

/-- A configuration with every field empty. -/
def emptyConfig : ModelConfig :=
  { apiKey := "", selectedModel := "", baseUrl := "", temperature := 0, maxTokens := none }

/-- A pro-screen state with every field empty, specialized by record
updates where the examples need concrete inputs. -/
def baseState : AppState :=
  { chats := [], activeChatId := "", assistantStyle := AssistantStyle.Claude
    customSystemPrompt := "", modelConfig := emptyConfig, isStreaming := false
    abortRef := false, inputMessage := "", attachments := [], alerts := [] }

end ProChat

namespace SimpleChat

open ProChat (Role AssistantStyle STYLE_PROMPTS jsOr)

/-- `interface Message` of the simple screen (`timestamp` is a `Date`,
modelled as epoch ms). -/
structure Message where
  id : String
  role : Role
  content : String
  timestamp : Nat
deriving DecidableEq

/-- `interface ModelConfig` of the simple screen. -/
structure ModelConfig where
  apiKey : String
  selectedModel : String
  baseUrl : String
deriving DecidableEq

/-- The simple screen's state, restricted to what `sendMessage` reads
and writes. -/
structure SimpleState where
  messages : List Message
  inputMessage : String
  isLoading : Bool
  modelConfig : ModelConfig
  assistantStyle : AssistantStyle
deriving DecidableEq

/-- A message of the non-streaming request body (plain string content). -/
structure SPayloadMessage where
  role : Role
  content : String
deriving DecidableEq

/-- `buildPayloadMessages(userMessage)`: persona system message first,
then the history including the new user message. -/
def buildPayloadMessages (st : SimpleState) (userMessage : Message) : List SPayloadMessage :=
  { role := Role.system, content := STYLE_PROMPTS st.assistantStyle }
    :: (st.messages ++ [userMessage]).map (fun m => { role := m.role, content := m.content })

/-- Outcome of the single `fetch` of `sendMessage`: a non-OK response
(status, optional `error.message` of the body, status line), or an OK
response with the optional first-choice message content. -/
inductive FetchResult where
  | httpError (status : Nat) (errorMessage : Option String) (statusText : String)
  | success (content : Option String)
deriving DecidableEq

/-- The error bubble of the simple screen. -/
def sUhOh (msg : String) : String :=
  "## Uh‑oh!\n\nI hit an error: **" ++ msg ++
    "**.\n\n**Try**\n- Re-check your API key\n- Confirm the model ID\n- Ensure your base URL is correct"

/-- `sendMessage()`.  `uid`/`aid` stand for the `Date.now()`-derived ids
and `t` for the clock.  The second component is the request body's
message list (`none` when no request is issued). -/
def sendMessage (st : SimpleState) (uid aid : String) (t : Nat) (fetch : FetchResult) :
    SimpleState × Option (List SPayloadMessage) :=
  if Js.trim st.inputMessage = "" ∨ st.isLoading then (st, none)
  else
    let userMessage : Message :=
      { id := uid, role := Role.user, content := Js.trim st.inputMessage, timestamp := t }
    let st1 : SimpleState :=
      { st with messages := st.messages ++ [userMessage], inputMessage := "", isLoading := true }
    let payloadMessages := buildPayloadMessages st userMessage
    let st2 : SimpleState :=
      match fetch with
      | FetchResult.httpError status errMsg statusText =>
        { st1 with messages := st1.messages ++
            [{ id := aid, role := Role.assistant
               content := sUhOh ("API Error " ++ toString status ++ ": " ++ jsOr errMsg statusText)
               timestamp := t }] }
      | FetchResult.success content? =>
        match content? with
        | some c =>
          if c = "" then
            { st1 with messages := st1.messages ++
                [{ id := aid, role := Role.assistant
                   content := sUhOh "Invalid response format from OpenRouter API", timestamp := t }] }
          else
            { st1 with messages := st1.messages ++
                [{ id := aid, role := Role.assistant, content := c, timestamp := t }] }
        | none =>
          { st1 with messages := st1.messages ++
              [{ id := aid, role := Role.assistant
                 content := sUhOh "Invalid response format from OpenRouter API", timestamp := t }] }
  ({ st2 with isLoading := false }, some payloadMessages)

/-- A simple-screen state with every field empty. -/
def baseSimple : SimpleState :=
  { messages := [], inputMessage := "", isLoading := false
    modelConfig := { apiKey := "", selectedModel := "", baseUrl := "" }
    assistantStyle := AssistantStyle.Claude }

end SimpleChat

/-! ## Helper lemmas -/

namespace ProChat

theorem find?_id_map (aid : String) (f : Chat → Chat) (hid : ∀ c, (f c).id = c.id) :
    ∀ l : List Chat,
      (l.map (fun c => if c.id = aid then f c else c)).find? (fun c => decide (c.id = aid))
        = (l.find? (fun c => decide (c.id = aid))).map f
  | [] => rfl
  | c :: cs => by
    by_cases h : c.id = aid
    · simp [List.find?_cons, h, hid c]
    · simp [List.find?_cons, h, find?_id_map aid f hid cs]

/-- `activeChat` after one of the `setChats(prev => prev.map(...))`
mutations: the active conversation is transformed in place (every
mutation leaves conversation ids unchanged). -/
theorem activeChat_mapActive (st : AppState) (f : Chat → Chat)
    (hid : ∀ c, (f c).id = c.id) :
    activeChat (mapActive st f) = (activeChat st).map f := by
  simpa [activeChat, mapActive] using find?_id_map st.activeChatId f hid st.chats

/-- `activeChat` only reads `chats` and `activeChatId`: updating the
streaming flags does not change it. -/
theorem activeChat_setFlags (st : AppState) (b1 b2 : Bool) :
    activeChat { st with isStreaming := b1, abortRef := b2 } = activeChat st := rfl

/-- `activeChat` is unchanged by composer updates. -/
theorem activeChat_setComposer (st : AppState) (v : String) (l : List Attachment) :
    activeChat { st with inputMessage := v, attachments := l } = activeChat st := rfl

theorem activeChat_addMessage (st : AppState) (m : Message) :
    activeChat (addMessage st m) =
      (activeChat st).map (fun c => { c with messages := c.messages ++ [m] }) := by
  simpa [addMessage] using
    activeChat_mapActive st (fun c => { c with messages := c.messages ++ [m] }) (fun c => rfl)

/-- Updating the last assistant message when the list ends with an
assistant message touches exactly that final message. -/
theorem updateLastAssistantIn_concat (pre : List Message) (a : Message) (f : Message → Message)
    (h : a.role = Role.assistant) :
    updateLastAssistantIn (pre ++ [a]) f = pre ++ [f a] := by
  simp [updateLastAssistantIn, updateFirstAssistant, h]

/-- `find?`/`findIndex` at a known position: when the match at index `k`
is the first one, both return it. -/
theorem find?_findIdx?_at {α : Type} (p : α → Bool) :
    ∀ (l : List α) (k : Nat) (x : α), l.get? k = some x →
      (∀ y ∈ l.take k, p y = false) → p x = true →
      l.find? p = some x ∧ l.findIdx? p = some k
  | [], k, x, hget, _, _ => by simp at hget
  | a :: tl, 0, x, hget, _, hx => by
    simp only [List.get?_cons_zero, Option.some.injEq] at hget
    subst hget
    simp [List.find?_cons, List.findIdx?_cons, hx]
  | a :: tl, k + 1, x, hget, hbefore, hx => by
    have ha : p a = false := hbefore a (by simp [List.take_succ_cons])
    have hbefore' : ∀ y ∈ tl.take k, p y = false := fun y hy =>
      hbefore y (by simp [List.take_succ_cons, hy])
    have ih := find?_findIdx?_at p tl k x (by simpa using hget) hbefore' hx
    refine ⟨?_, ?_⟩
    · simp [List.find?_cons, ha, ih.1]
    · simp [List.findIdx?_cons, ha, ih.2]

theorem lastUserIdx?_none :
    ∀ ms : List Message, lastUserIdx? ms = none → ∀ m ∈ ms, m.role ≠ Role.user
  | [], _, m, hm => by simp at hm
  | m0 :: rest, h, m, hm => by
    unfold lastUserIdx? at h
    cases hrest : lastUserIdx? rest with
    | some i => rw [hrest] at h; exact absurd h (by simp)
    | none =>
      rw [hrest] at h
      by_cases hr : m0.role = Role.user
      · simp [hr] at h
      · rcases List.mem_cons.mp hm with rfl | hm'
        · exact hr
        · exact lastUserIdx?_none rest hrest m hm'

/-- `lastUserIdx?` finds the most recent user message: the index is
valid, holds a user message, and no later message has the user role. -/
theorem lastUserIdx?_spec :
    ∀ (ms : List Message) (i : Nat), lastUserIdx? ms = some i →
      ∃ m, ms.get? i = some m ∧ m.role = Role.user ∧
        ∀ j mj, i < j → ms.get? j = some mj → mj.role ≠ Role.user
  | [], i, h => by simp [lastUserIdx?] at h
  | m0 :: rest, i, h => by
    unfold lastUserIdx? at h
    cases hrest : lastUserIdx? rest with
    | some i0 =>
      rw [hrest] at h
      simp only [Option.some.injEq] at h
      subst h
      obtain ⟨m, hget, hrole, hafter⟩ := lastUserIdx?_spec rest i0 hrest
      refine ⟨m, by simpa using hget, hrole, ?_⟩
      intro j mj hj hgetj
      cases j with
      | zero => omega
      | succ j' =>
        exact hafter j' mj (by omega) (by simpa using hgetj)
    | none =>
      rw [hrest] at h
      by_cases hr : m0.role = Role.user
      · rw [if_pos hr] at h
        obtain rfl := (Option.some.injEq _ _).mp h
        refine ⟨m0, rfl, hr, ?_⟩
        intro j mj hj hgetj
        cases j with
        | zero => omega
        | succ j' =>
          have hmem : mj ∈ rest := List.get?_mem (by simpa using hgetj)
          exact lastUserIdx?_none rest hrest mj hmem
      · simp [hr] at h

/-- A line whose decoded delta is absent or empty leaves the
accumulator and the UI state untouched (only the log may grow). -/
theorem processLine_of_empty (parse : String → Option StreamJson) (s : LoopState) (line : String)
    (h : ∀ d, lineDelta parse line = some d → d = "") :
    (processLine parse s line).app = s.app ∧ (processLine parse s line).full = s.full := by
  unfold processLine
  cases hm : matchData line with
  | none => exact ⟨rfl, rfl⟩
  | some data =>
    by_cases hd : data = "[DONE]"
    · simp [hd]
    · cases hp : parse data with
      | none => simp [hd, hp]
      | some j =>
        have hdelta : deltaOf j = "" := h _ (by simp [lineDelta, hm, hd, hp])
        simp [hd, hp, hdelta]

theorem foldl_processLine_of_empty (parse : String → Option StreamJson) :
    ∀ (lines : List String) (s : LoopState),
      (∀ line ∈ lines, ∀ d, lineDelta parse line = some d → d = "") →
      (lines.foldl (processLine parse) s).app = s.app ∧
        (lines.foldl (processLine parse) s).full = s.full
  | [], _, _ => ⟨rfl, rfl⟩
  | line :: rest, s, h => by
    have hstep := processLine_of_empty parse s line (h line (List.mem_cons_self line rest))
    have hrest := foldl_processLine_of_empty parse rest (processLine parse s line)
      (fun l hl => h l (List.mem_cons_of_mem line hl))
    exact ⟨hrest.1.trans hstep.1, hrest.2.trans hstep.2⟩

/-- A stream all of whose decoded deltas are empty leaves the UI state
and the accumulator of the read loop untouched. -/
theorem runChunks_of_empty (parse : String → Option StreamJson) :
    ∀ (chunks : List String) (s : LoopState),
      (∀ d ∈ streamDeltas parse chunks, d = "") →
      (runChunks parse s chunks).app = s.app ∧ (runChunks parse s chunks).full = s.full
  | [], _, _ => ⟨rfl, rfl⟩
  | chunk :: rest, s, h => by
    have hchunk : ∀ line ∈ Js.splitNewline chunk, ∀ d, lineDelta parse line = some d → d = "" := by
      intro line hline d hd
      exact h d (by
        simp only [streamDeltas, List.mem_flatMap]
        exact ⟨chunk, List.mem_cons_self chunk rest,
          by simp only [chunkDeltas, List.mem_filterMap]; exact ⟨line, hline, hd⟩⟩)
    have hstep := foldl_processLine_of_empty parse (Js.splitNewline chunk) s hchunk
    have hrest := runChunks_of_empty parse rest (processChunk parse s chunk)
      (fun d hd => h d (by
        simp only [streamDeltas, List.mem_flatMap] at hd ⊢
        obtain ⟨c, hc, hdc⟩ := hd
        exact ⟨c, List.mem_cons_of_mem chunk hc, hdc⟩))
    have hc1 : (processChunk parse s chunk).app = s.app := hstep.1
    have hc2 : (processChunk parse s chunk).full = s.full := hstep.2
    exact ⟨hrest.1.trans hc1, hrest.2.trans hc2⟩

/-- `streamChat` on a completed stream with only empty deltas: the state
is the placeholder-extended state with the flags cleared, and the result
is the empty-response error. -/
theorem streamChat_completed_empty (parse : String → Option StreamJson) (st : AppState)
    (asstId : String) (t : Nat) (chunks : List String)
    (h : ∀ d ∈ streamDeltas parse chunks, d = "") :
    (streamChat parse st asstId t chunks StreamOutcome.completed).state =
      { addMessage { st with abortRef := true, isStreaming := true }
          { id := asstId, role := Role.assistant, content := "", timestamp := t, attachments := [] }
        with isStreaming := false, abortRef := false } ∧
    (streamChat parse st asstId t chunks StreamOutcome.completed).result =
      Except.error "Empty response from model" := by
  have hrun := runChunks_of_empty parse chunks
    { app := addMessage { st with abortRef := true, isStreaming := true }
        { id := asstId, role := Role.assistant, content := "", timestamp := t, attachments := [] }
      full := "", log := [] } h
  unfold streamChat
  simp [hrun.1, hrun.2]
  rfl

/-- Observable effects of `streamChat` on a completed all-empty stream:
the active conversation gains exactly the empty placeholder, the result
is the empty-response error, the flags are cleared, and the composer is
untouched. -/
theorem streamChat_completed_empty_effects (parse : String → Option StreamJson) (st : AppState)
    (asstId : String) (t : Nat) (chunks : List String) (c : Chat)
    (h : ∀ d ∈ streamDeltas parse chunks, d = "") (hc : activeChat st = some c) :
    activeChat (streamChat parse st asstId t chunks StreamOutcome.completed).state =
      some { c with messages := c.messages ++
        [{ id := asstId, role := Role.assistant, content := "", timestamp := t, attachments := [] }] } ∧
    (streamChat parse st asstId t chunks StreamOutcome.completed).result =
      Except.error "Empty response from model" ∧
    (streamChat parse st asstId t chunks StreamOutcome.completed).state.isStreaming = false ∧
    (streamChat parse st asstId t chunks StreamOutcome.completed).state.inputMessage = st.inputMessage ∧
    (streamChat parse st asstId t chunks StreamOutcome.completed).state.attachments = st.attachments := by
  obtain ⟨hstate, hres⟩ := streamChat_completed_empty parse st asstId t chunks h
  refine ⟨?_, hres, ?_, ?_, ?_⟩
  · rw [hstate]
    rw [show activeChat ({ addMessage { st with abortRef := true, isStreaming := true }
          { id := asstId, role := Role.assistant, content := "", timestamp := t, attachments := [] }
          with isStreaming := false, abortRef := false } : AppState)
        = activeChat (addMessage { st with abortRef := true, isStreaming := true }
          { id := asstId, role := Role.assistant, content := "", timestamp := t, attachments := [] })
        from rfl]
    rw [activeChat_addMessage]
    rw [show activeChat ({ st with abortRef := true, isStreaming := true } : AppState)
        = activeChat st from rfl]
    rw [hc]
    rfl
  · rw [hstate]
  · rw [hstate]; rfl
  · rw [hstate]; rfl

end ProChat

/-! ## Claims -/

namespace ProChat

/-- C2: for every exit of the streaming read loop — normal completion,
the empty-response error, or an external abort — the `finally` cleanup
leaves the in-progress flag false and the cancellation handle cleared,
no matter how much text was accumulated; `stopStreaming` establishes the
same state on the initiator's side. -/
theorem claim_C2_stream_cleanup (parse : String → Option StreamJson) (st : AppState)
    (asstId : String) (t : Nat) (chunks : List String) (outcome : StreamOutcome) :
    (streamChat parse st asstId t chunks outcome).state.isStreaming = false ∧
    (streamChat parse st asstId t chunks outcome).state.abortRef = false ∧
    (stopStreaming st).isStreaming = false ∧
    (stopStreaming st).abortRef = false := by
  exact ⟨rfl, rfl, rfl, rfl⟩

/-- C10: deleting the sole remaining conversation leaves the list empty
while the active-conversation id still names the deleted conversation,
so the lookup behind the non-null `activeChat` assertion finds nothing. -/
theorem claim_C10_delete_sole_chat (st : AppState) (c : Chat)
    (hchats : st.chats = [c]) (hactive : st.activeChatId = c.id) :
    (deleteChat st c.id).chats = [] ∧
    (deleteChat st c.id).activeChatId = c.id ∧
    activeChat (deleteChat st c.id) = none := by
  unfold deleteChat activeChat
  simp [hchats, hactive]

/-- C10 witness at a concrete single-conversation state. -/
theorem claim_C10_witness :
    (deleteChat { baseState with chats := [⟨"c1", "New Chat", []⟩], activeChatId := "c1" } "c1").chats = [] ∧
    (deleteChat { baseState with chats := [⟨"c1", "New Chat", []⟩], activeChatId := "c1" } "c1").activeChatId = "c1" ∧
    activeChat (deleteChat { baseState with chats := [⟨"c1", "New Chat", []⟩], activeChatId := "c1" } "c1") = none :=
  claim_C10_delete_sole_chat _ ⟨"c1", "New Chat", []⟩ rfl rfl

/-- C9 counterexample: with a request in flight (`isStreaming = true`)
and a user message present, `handleRegenerate` still issues a request —
the in-flight guard exists only on the send paths — so a second
generation request can become active on the pro screen. -/
theorem claim_C9_counterexample :
    ({ baseState with
        chats := [⟨"c1", "T", [⟨"m1", Role.user, "hi", 1, []⟩]⟩]
        activeChatId := "c1", isStreaming := true } : AppState).isStreaming = true ∧
    ((handleRegenerate { baseState with
        chats := [⟨"c1", "T", [⟨"m1", Role.user, "hi", 1, []⟩]⟩]
        activeChatId := "c1", isStreaming := true }).2).isSome = true :=
  ⟨rfl, rfl⟩

/-- C9 (amended): on each screen, initiating a second send while a
generation request is in flight is a no-op — the state is unchanged and
no outbound request is issued.  (Regenerate, in contrast, performs no
in-flight check; see the counterexample.) -/
theorem claim_C9_send_noop_while_inflight
    (st : AppState) (custom : Option CustomSend) (uid aid eid : String) (t : Nat)
    (parse : String → Option StreamJson) (chunks : List String) (outcome : StreamOutcome)
    (hstream : st.isStreaming = true)
    (sst : SimpleChat.SimpleState) (suid said : String) (t2 : Nat) (sfetch : SimpleChat.FetchResult)
    (hload : sst.isLoading = true) :
    handleSend st custom uid aid eid t parse chunks outcome = (st, none) ∧
    SimpleChat.sendMessage sst suid said t2 sfetch = (sst, none) := by
  constructor
  · unfold handleSend; simp [hstream]
  · unfold SimpleChat.sendMessage; simp [hload]

/-- C9 witness at concrete in-flight states of both screens. -/
theorem claim_C9_witness :
    handleSend { baseState with isStreaming := true } none "u" "a" "e" 0
        (fun _ => none) [] StreamOutcome.completed
      = ({ baseState with isStreaming := true }, none) ∧
    SimpleChat.sendMessage { SimpleChat.baseSimple with isLoading := true } "u" "a" 0
        (SimpleChat.FetchResult.success none)
      = ({ SimpleChat.baseSimple with isLoading := true }, none) :=
  claim_C9_send_noop_while_inflight _ none "u" "a" "e" 0 (fun _ => none) []
    StreamOutcome.completed rfl _ "u" "a" 0 (SimpleChat.FetchResult.success none) rfl

/-- C4 counterexample: a history message carrying only a file (non-image)
attachment — hence no image attachments at all — is still encoded with a
content array, not a plain string, because the source tests
`m.attachments?.length` rather than the presence of image attachments. -/
theorem claim_C4_counterexample :
    (buildPayload emptyConfig "sys"
        { id := "m2", role := Role.user, content := "hi", timestamp := 6, attachments := [] }
        [{ id := "m1", role := Role.user, content := "hello", timestamp := 5
           attachments := [{ id := "a1", name := "notes.txt", type := AttachKind.file
                             mime := "text/plain", dataUrl := none
                             textPreview := some "x", size := some 3 }] }]).messages.get? 1
      = some { role := Role.user, content := PayloadContent.parts [ContentPart.text "hello"] } ∧
    ([{ id := "a1", name := "notes.txt", type := AttachKind.file, mime := "text/plain"
        dataUrl := none, textPreview := some "x", size := some 3 }] : List Attachment).all
      (fun a => decide (a.type ≠ AttachKind.image)) = true :=
  ⟨rfl, rfl⟩

/-- C4 (amended): the payload is ordered system message, history, new
user message.  The new user message gets a content array — one text part
followed by one image reference per image attachment carrying data —
exactly when it has an image attachment with data, and a plain string
otherwise; a history message gets the content-array form exactly when
its attachment list is non-empty (regardless of attachment kind) and a
plain string when it has no attachments. -/
theorem claim_C4_payload_shape (cfg : ModelConfig) (sys : String)
    (u : Message) (hist : List Message) :
    (buildPayload cfg sys u hist).messages =
      { role := Role.system, content := PayloadContent.str sys }
        :: hist.map (fun m => { role := m.role, content := historyContent m })
        ++ [{ role := Role.user, content := userContent u }] ∧
    (userHasImages u = true →
      userContent u = PayloadContent.parts
        (ContentPart.text u.content :: imagePartsOf u.attachments)) ∧
    (userHasImages u = false → userContent u = PayloadContent.str u.content) ∧
    (∀ m : Message, m.attachments ≠ [] →
      historyContent m = PayloadContent.parts
        (ContentPart.text m.content :: imagePartsOf m.attachments)) ∧
    (∀ m : Message, m.attachments = [] → historyContent m = PayloadContent.str m.content) ∧
    (∀ atts : List Attachment,
      (imagePartsOf atts).length = (atts.filter Attachment.isImageWithData).length) := by
  refine ⟨rfl, ?_, ?_, ?_, ?_, ?_⟩
  · intro h; simp [userContent, h, messageContentWithParts]
  · intro h; simp [userContent, h]
  · intro m h; simp [historyContent, h, messageContentWithParts]
  · intro m h; simp [historyContent, h]
  · intro atts; simp [imagePartsOf]

/-- C4 witness: a user message with one image attachment produces the
text part followed by the single image reference. -/
theorem claim_C4_witness :
    userContent { id := "m", role := Role.user, content := "look", timestamp := 1
                  attachments := [{ id := "a", name := "p.png", type := AttachKind.image
                                    mime := "image/png", dataUrl := some "data:image/png;base64,AA"
                                    textPreview := none, size := some 9 }] }
      = PayloadContent.parts
          [ContentPart.text "look", ContentPart.imageUrl "data:image/png;base64,AA"] := by
  have h := (claim_C4_payload_shape emptyConfig "s"
    { id := "m", role := Role.user, content := "look", timestamp := 1
      attachments := [{ id := "a", name := "p.png", type := AttachKind.image
                        mime := "image/png", dataUrl := some "data:image/png;base64,AA"
                        textPreview := none, size := some 9 }] } []).2.1 (by decide)
  exact h.trans (by decide)

/-- C5 counterexample: a conversation whose title is the empty string
does not round-trip — `obj.title || fileName` is falsy on the empty
string, so the imported title becomes the file name instead. -/
theorem claim_C5_counterexample :
    (importChat baseState
        (some (exportChat { id := "c0", title := "", messages := [⟨"m1", Role.user, "hi", 1, []⟩] }))
        "backup.json" "n1").chats.head?.map Chat.title = some "backup" ∧
    ({ id := "c0", title := "", messages := [⟨"m1", Role.user, "hi", 1, []⟩] } : Chat).title = "" ∧
    some "backup" ≠ some ("" : String) := by
  refine ⟨by decide, rfl, by decide⟩

/-- C5 (amended): exporting a conversation and importing the resulting
document yields a conversation with a fresh id, an identical message
array, and — whenever the original title is non-empty — an identical
title (an empty title is falsy in JS and falls back to the file name). -/
theorem claim_C5_export_import_roundtrip (st : AppState) (c : Chat)
    (fileName freshId : String) (htitle : c.title ≠ "") :
    importChat st (some (exportChat c)) fileName freshId =
      { st with
          chats := { id := freshId, title := c.title, messages := c.messages } :: st.chats
          activeChatId := freshId } ∧
    activeChat (importChat st (some (exportChat c)) fileName freshId) =
      some { id := freshId, title := c.title, messages := c.messages } := by
  have hmain : importChat st (some (exportChat c)) fileName freshId =
      { st with
          chats := { id := freshId, title := c.title, messages := c.messages } :: st.chats
          activeChatId := freshId } := by
    unfold importChat exportChat
    simp [jsOr, htitle]
  refine ⟨hmain, ?_⟩
  rw [hmain]
  simp [activeChat, List.find?_cons]

/-- C5 witness at a concrete one-message conversation. -/
theorem claim_C5_witness :
    importChat baseState
        (some (exportChat { id := "c1", title := "T", messages := [⟨"m1", Role.user, "hi", 1, []⟩] }))
        "f.json" "n1"
      = { baseState with chats := [⟨"n1", "T", [⟨"m1", Role.user, "hi", 1, []⟩]⟩], activeChatId := "n1" } :=
  (claim_C5_export_import_roundtrip baseState
    { id := "c1", title := "T", messages := [⟨"m1", Role.user, "hi", 1, []⟩] }
    "f.json" "n1" (by decide)).1

/-- C6 counterexample: a document with an EMPTY messages array is
accepted — a new (empty) conversation is created and activated and no
format error is raised — because an empty array is truthy in JS; the
non-emptiness requirement does not hold. -/
theorem claim_C6_counterexample :
    importChat baseState (some { id := none, title := some "T", messages := some [] }) "f.json" "n1"
      = { baseState with chats := [{ id := "n1", title := "T", messages := [] }], activeChatId := "n1" } ∧
    (importChat baseState (some { id := none, title := some "T", messages := some [] }) "f.json" "n1").alerts
      = [] := by
  refine ⟨by decide, by decide⟩

/-- C6 (amended): import accepts a document exactly when it carries a
messages array — including an empty one.  A document without a messages
field is rejected with a format alert and no new conversation (as is a
parse failure); on acceptance a new conversation is created from the
title (falling back to the file name when the title is absent or empty)
and the messages, and it becomes active. -/
theorem claim_C6_import_acceptance (st : AppState) (doc : ChatDoc) (fileName freshId : String) :
    (doc.messages = none →
      importChat st (some doc) fileName freshId =
        { st with alerts := st.alerts ++ ["Invalid chat JSON"] }) ∧
    (∀ msgs, doc.messages = some msgs →
      importChat st (some doc) fileName freshId =
        { st with
            chats := { id := freshId, title := jsOr doc.title (stripJsonExt fileName)
                       messages := msgs } :: st.chats
            activeChatId := freshId }) ∧
    (importChat st none fileName freshId =
      { st with alerts := st.alerts ++ ["Failed to parse JSON"] }) := by
  refine ⟨?_, ?_, rfl⟩
  · intro h; simp only [importChat, h]
  · intro msgs h; simp only [importChat, h]

/-- C6 witness: the spec's own example `{"title":"T"}` (no messages
field) is rejected with the format alert and no new conversation. -/
theorem claim_C6_witness :
    importChat baseState (some { id := none, title := some "T", messages := none }) "f.json" "n1"
      = { baseState with alerts := ["Invalid chat JSON"] } :=
  (claim_C6_import_acceptance baseState { id := none, title := some "T", messages := none }
    "f.json" "n1").1 rfl

/-- C1: per-line behaviour of the streaming transport.  Lines without
the `data:` framing are ignored; a `[DONE]` payload is a no-op; a
payload that fails to parse is discarded with the error logged, and the
fold continues over the remaining lines and chunks; a parsed payload
with a non-empty first-choice delta appends the delta to the running
accumulator and to the content of the live (last) assistant message of
the active conversation; an empty or absent delta changes nothing. -/
theorem claim_C1_stream_line_handling (parse : String → Option StreamJson)
    (s : LoopState) (line : String) :
    (matchData line = none → processLine parse s line = s) ∧
    (matchData line = some "[DONE]" → processLine parse s line = s) ∧
    (∀ data, matchData line = some data → data ≠ "[DONE]" → parse data = none →
      processLine parse s line =
        { s with log := s.log ++ ["Failed to parse OpenRouter stream: " ++ line] }) ∧
    (∀ data j, matchData line = some data → data ≠ "[DONE]" → parse data = some j →
      deltaOf j ≠ "" →
      (processLine parse s line).full = s.full ++ deltaOf j ∧
      (processLine parse s line).app =
        updateLastAssistant s.app (fun m => { m with content := m.content ++ deltaOf j })) ∧
    (∀ data j, matchData line = some data → data ≠ "[DONE]" → parse data = some j →
      deltaOf j = "" → processLine parse s line = s) ∧
    (∀ data j c pre a, matchData line = some data → data ≠ "[DONE]" → parse data = some j →
      deltaOf j ≠ "" → activeChat s.app = some c → c.messages = pre ++ [a] →
      a.role = Role.assistant →
      activeChat (processLine parse s line).app =
        some { c with messages := pre ++ [{ a with content := a.content ++ deltaOf j }] }) ∧
    (∀ lines, (line :: lines).foldl (processLine parse) s =
      lines.foldl (processLine parse) (processLine parse s line)) := by
  refine ⟨?_, ?_, ?_, ?_, ?_, ?_, fun lines => rfl⟩
  · intro h; unfold processLine; rw [h]
  · intro h; unfold processLine; rw [h]; simp
  · intro data hm hd hp; unfold processLine; rw [hm]; simp [hd, hp]
  · intro data j hm hd hp hdelta
    unfold processLine; rw [hm]; simp [hd, hp, hdelta]
  · intro data j hm hd hp hdelta
    unfold processLine; rw [hm]; simp [hd, hp, hdelta]
  · intro data j c pre a hm hd hp hdelta hc hmsgs hrole
    have happ : (processLine parse s line).app =
        updateLastAssistant s.app (fun m => { m with content := m.content ++ deltaOf j }) := by
      unfold processLine; rw [hm]; simp [hd, hp, hdelta]
    rw [happ]
    unfold updateLastAssistant
    rw [activeChat_mapActive s.app
        (fun ch => { ch with messages := (updateLastAssistantIn ch.messages (fun m => { m with content := m.content ++ deltaOf j })) })
        (fun ch => rfl), hc]
    simp only [Option.map_some']
    rw [hmsgs, updateLastAssistantIn_concat pre a _ hrole]

/-- C1 witness: a line without the `data:` framing leaves the loop state
unchanged. -/
theorem claim_C1_witness :
    processLine (fun _ => none) { app := baseState, full := "", log := [] } "hello"
      = { app := baseState, full := "", log := [] } :=
  (claim_C1_stream_line_handling (fun _ => none)
    { app := baseState, full := "", log := [] } "hello").1 rfl

/-- C7: editing the message at index k keeps exactly the first k
messages of the active conversation and moves the edited message's text
and attachments into the composer.  Message ids are unique within a
conversation (data-model invariant), expressed by requiring no earlier
message to share the edited message's id, so the id-based lookup of the
source resolves to index k. -/
theorem claim_C7_edit_truncates (st : AppState) (c : Chat) (k : Nat) (m : Message)
    (hc : activeChat st = some c)
    (hk : c.messages.get? k = some m)
    (huniq : ∀ x ∈ c.messages.take k, x.id ≠ m.id) :
    (handleEditMessage st m.id).inputMessage = m.content ∧
    (handleEditMessage st m.id).attachments = m.attachments ∧
    activeChat (handleEditMessage st m.id) = some { c with messages := c.messages.take k } := by
  have hfind := find?_findIdx?_at (fun x => decide (x.id = m.id)) c.messages k m hk
    (fun y hy => by simpa using huniq y hy) (by simp)
  have hscrut : (activeChat st).bind
      (fun c => c.messages.find? (fun x => decide (x.id = m.id))) = some m := by
    rw [hc]; simpa using hfind.1
  unfold handleEditMessage
  rw [hscrut]
  refine ⟨rfl, rfl, ?_⟩
  have hmap := activeChat_mapActive
    { st with inputMessage := m.content, attachments := m.attachments }
    (fun ch => match ch.messages.findIdx? (fun x => decide (x.id = m.id)) with
      | none => ch
      | some idx => { ch with messages := ch.messages.take idx })
    (fun ch => by
      have h0 : ((match ch.messages.findIdx? (fun x => decide (x.id = m.id)) with
          | none => ch
          | some idx => { ch with messages := ch.messages.take idx } : Chat)).id = ch.id := by
        cases h : ch.messages.findIdx? (fun x => decide (x.id = m.id)) <;> rfl
      exact h0)
  rw [hmap]
  have hc' : activeChat { st with inputMessage := m.content, attachments := m.attachments }
      = some c := hc
  rw [hc']
  simp only [Option.map_some']
  rw [hfind.2]

/-- C7 witness: editing the second message of a three-message
conversation keeps exactly the first message and fills the composer. -/
theorem claim_C7_witness :
    (handleEditMessage { baseState with
        chats := [⟨"c1", "T",
          [⟨"m1", Role.user, "one", 1, []⟩,
           ⟨"m2", Role.user, "two", 2, [⟨"a1", "f.txt", AttachKind.file, "text/plain", none, some "x", none⟩]⟩,
           ⟨"m3", Role.assistant, "three", 3, []⟩]⟩]
        activeChatId := "c1" } "m2").inputMessage = "two" ∧
    (handleEditMessage { baseState with
        chats := [⟨"c1", "T",
          [⟨"m1", Role.user, "one", 1, []⟩,
           ⟨"m2", Role.user, "two", 2, [⟨"a1", "f.txt", AttachKind.file, "text/plain", none, some "x", none⟩]⟩,
           ⟨"m3", Role.assistant, "three", 3, []⟩]⟩]
        activeChatId := "c1" } "m2").attachments
      = [⟨"a1", "f.txt", AttachKind.file, "text/plain", none, some "x", none⟩] ∧
    activeChat (handleEditMessage { baseState with
        chats := [⟨"c1", "T",
          [⟨"m1", Role.user, "one", 1, []⟩,
           ⟨"m2", Role.user, "two", 2, [⟨"a1", "f.txt", AttachKind.file, "text/plain", none, some "x", none⟩]⟩,
           ⟨"m3", Role.assistant, "three", 3, []⟩]⟩]
        activeChatId := "c1" } "m2")
      = some ⟨"c1", "T", [⟨"m1", Role.user, "one", 1, []⟩]⟩ :=
  claim_C7_edit_truncates _
    ⟨"c1", "T",
      [⟨"m1", Role.user, "one", 1, []⟩,
       ⟨"m2", Role.user, "two", 2, [⟨"a1", "f.txt", AttachKind.file, "text/plain", none, some "x", none⟩]⟩,
       ⟨"m3", Role.assistant, "three", 3, []⟩]⟩
    1 ⟨"m2", Role.user, "two", 2, [⟨"a1", "f.txt", AttachKind.file, "text/plain", none, some "x", none⟩]⟩
    rfl rfl (by decide)

/-- C8: regenerate truncates the active conversation to end at the most
recent user message (that message included, everything after dropped)
and re-issues the request built from that message as the new user
message with the messages before it as the history; no later message has
the user role. -/
theorem claim_C8_regenerate (st : AppState) (c : Chat) (i : Nat)
    (hc : activeChat st = some c) (hi : lastUserIdx? c.messages = some i) :
    activeChat (handleRegenerate st).1 = some { c with messages := c.messages.take (i + 1) } ∧
    (∃ lastUser, c.messages.get? i = some lastUser ∧ lastUser.role = Role.user ∧
      (handleRegenerate st).2 =
        some (buildPayload st.modelConfig (systemPrompt st) lastUser (c.messages.take i))) ∧
    (∀ j mj, i < j → c.messages.get? j = some mj → mj.role ≠ Role.user) := by
  obtain ⟨lastUser, hget, hrole, hafter⟩ := lastUserIdx?_spec c.messages i hi
  unfold handleRegenerate
  rw [hc]
  simp only [hi, hget]
  refine ⟨?_, ⟨lastUser, rfl, hrole, rfl⟩, hafter⟩
  have hmap := activeChat_mapActive st
    (fun ch => { ch with messages := c.messages.take (i + 1) }) (fun ch => rfl)
  rw [hmap, hc]
  rfl

/-- C3: a stream that completes with no non-empty text deltas leaves the
accumulator empty, so `streamChat` fails with the empty-response error
and `handleSend` appends an assistant error bubble carrying it, while
the previously created empty assistant placeholder remains in the
conversation (user message, empty placeholder, error bubble in order);
afterwards the in-flight flag is clear and the composer is empty. -/
theorem claim_C3_empty_stream_error (st : AppState) (c : Chat) (custom : Option CustomSend)
    (uid aid eid : String) (t : Nat) (parse : String → Option StreamJson) (chunks : List String)
    (hstream : st.isStreaming = false)
    (hc : activeChat st = some c)
    (hcontent : Js.trim ((custom.bind CustomSend.content).getD st.inputMessage) ≠ "")
    (hkey : st.modelConfig.apiKey ≠ "")
    (hmodel : st.modelConfig.selectedModel ≠ "")
    (hdeltas : ∀ d ∈ streamDeltas parse chunks, d = "") :
    activeChat (handleSend st custom uid aid eid t parse chunks StreamOutcome.completed).1 =
      some { c with messages := c.messages ++
        [{ id := uid, role := Role.user
           content := Js.trim ((custom.bind CustomSend.content).getD st.inputMessage)
           timestamp := t
           attachments := (custom.bind CustomSend.attachments).getD st.attachments },
         { id := aid, role := Role.assistant, content := "", timestamp := t, attachments := [] },
         { id := eid, role := Role.assistant
           content := errorBubble "Empty response from model", timestamp := t
           attachments := [] }] } ∧
    (handleSend st custom uid aid eid t parse chunks StreamOutcome.completed).1.isStreaming = false ∧
    (handleSend st custom uid aid eid t parse chunks StreamOutcome.completed).1.inputMessage = "" ∧
    (handleSend st custom uid aid eid t parse chunks StreamOutcome.completed).1.attachments = [] := by
  have hnotstream : ¬(st.isStreaming = true) := by simp [hstream]
  have hcond : ¬(st.modelConfig.apiKey = "" ∨ st.modelConfig.selectedModel = "") := by
    rintro (h | h)
    exacts [hkey h, hmodel h]
  have hcST2 : activeChat ({ addMessage st
        { id := uid, role := Role.user
          content := Js.trim ((custom.bind CustomSend.content).getD st.inputMessage)
          timestamp := t
          attachments := (custom.bind CustomSend.attachments).getD st.attachments }
      with inputMessage := "", attachments := [] } : AppState)
      = some { c with messages := c.messages ++
          [{ id := uid, role := Role.user
             content := Js.trim ((custom.bind CustomSend.content).getD st.inputMessage)
             timestamp := t
             attachments := (custom.bind CustomSend.attachments).getD st.attachments }] } := by
    rw [show activeChat ({ addMessage st
          { id := uid, role := Role.user
            content := Js.trim ((custom.bind CustomSend.content).getD st.inputMessage)
            timestamp := t
            attachments := (custom.bind CustomSend.attachments).getD st.attachments }
        with inputMessage := "", attachments := [] } : AppState)
        = activeChat (addMessage st
          { id := uid, role := Role.user
            content := Js.trim ((custom.bind CustomSend.content).getD st.inputMessage)
            timestamp := t
            attachments := (custom.bind CustomSend.attachments).getD st.attachments })
        from rfl]
    rw [activeChat_addMessage, hc]
    rfl
  obtain ⟨h1, h2, h3, h4, h5⟩ := streamChat_completed_empty_effects parse
    ({ addMessage st
        { id := uid, role := Role.user
          content := Js.trim ((custom.bind CustomSend.content).getD st.inputMessage)
          timestamp := t
          attachments := (custom.bind CustomSend.attachments).getD st.attachments }
      with inputMessage := "", attachments := [] } : AppState)
    aid t chunks _ hdeltas hcST2
  simp only [handleSend, if_neg hnotstream, if_neg hcontent, if_neg hcond, hc, h2]
  refine ⟨?_, ?_, ?_, ?_⟩
  · rw [activeChat_addMessage, h1]
    simp [List.append_assoc]
  · exact h3
  · exact h4
  · exact h5

/-- C3 witness: sending "hi" into an empty conversation over a stream
that delivers no frames yields user message, empty placeholder, and the
empty-response error bubble. -/
theorem claim_C3_witness :
    activeChat (handleSend { baseState with
        chats := [⟨"c1", "T", []⟩], activeChatId := "c1", inputMessage := "hi"
        modelConfig := { emptyConfig with apiKey := "k", selectedModel := "m" } }
      none "u" "a" "e" 7 (fun _ => none) [] StreamOutcome.completed).1
      = some ⟨"c1", "T",
          [⟨"u", Role.user, "hi", 7, []⟩,
           ⟨"a", Role.assistant, "", 7, []⟩,
           ⟨"e", Role.assistant, errorBubble "Empty response from model", 7, []⟩]⟩ :=
  (claim_C3_empty_stream_error
    { baseState with
        chats := [⟨"c1", "T", []⟩], activeChatId := "c1", inputMessage := "hi"
        modelConfig := { emptyConfig with apiKey := "k", selectedModel := "m" } }
    ⟨"c1", "T", []⟩ none "u" "a" "e" 7 (fun _ => none) []
    rfl rfl (by decide) (by decide) (by decide) (fun d hd => nomatch hd)).1

/-- C8 witness: the spec's own example — `[user "hi", assistant "hello"]`
regenerates to `[user "hi"]`. -/
theorem claim_C8_witness :
    activeChat (handleRegenerate { baseState with
        chats := [⟨"c1", "T",
          [⟨"m1", Role.user, "hi", 1, []⟩, ⟨"m2", Role.assistant, "hello", 2, []⟩]⟩]
        activeChatId := "c1" }).1
      = some ⟨"c1", "T", [⟨"m1", Role.user, "hi", 1, []⟩]⟩ :=
  (claim_C8_regenerate
    { baseState with
        chats := [⟨"c1", "T",
          [⟨"m1", Role.user, "hi", 1, []⟩, ⟨"m2", Role.assistant, "hello", 2, []⟩]⟩]
        activeChatId := "c1" }
    ⟨"c1", "T", [⟨"m1", Role.user, "hi", 1, []⟩, ⟨"m2", Role.assistant, "hello", 2, []⟩]⟩
    0 rfl rfl).1

end ProChat
